import Mathlib

/-!
Verification of the compose CLI command layer (`src/compose/cli/main.py`).

The command handlers are embedded as pure functions that return the ordered
list of runtime calls the handler issues (`Trace`) together with an
`Outcome` (normal return, a raised `UserError`, or an explicit
`sys.exit(code)`).  External collaborators (the project object, the docker
client, the pty bridge) are abstracted to trace entries; values the code
reads from the environment (stdin being a tty, the remote exit status,
signal arrivals) are explicit parameters.
-/

namespace Compose

/-- Python strings are modelled at the character level. -/
abbrev PyStr := List Char

/-- Python `str.isdigit` (ASCII digits): nonempty and all digits. -/
def pyIsdigit (s : PyStr) : Bool := !s.isEmpty && s.all Char.isDigit

/-- Value of a digit string, as Python `int` reads it (base 10). -/
def digitsToNat (s : PyStr) : Nat :=
  s.foldl (fun acc c => 10 * acc + (c.toNat - 48)) 0

/-- Python `'=' in s`. -/
def hasEq (s : PyStr) : Bool := s.any (fun c => c = '=')

/-- Python `s.split('=', 1)`: the part before the first `'='` and the rest. -/
def splitEqOnce : PyStr → PyStr × PyStr
  | [] => ([], [])
  | c :: rest =>
    if c = '=' then ([], rest)
    else
      let p := splitEqOnce rest
      (c :: p.1, p.2)

/-- Strip leading and trailing whitespace, as Python `int` does first. -/
def stripWs (s : PyStr) : PyStr :=
  ((s.dropWhile Char.isWhitespace).reverse.dropWhile Char.isWhitespace).reverse

/-- Python `int(s)` on a string: optional surrounding whitespace, optional
sign, then a nonempty digit run; anything else raises `ValueError`,
modelled as `none`. -/
def pyInt (s : PyStr) : Option Int :=
  match stripWs s with
  | [] => none
  | c :: rest =>
    if c = '-' then
      if pyIsdigit rest then some (-(digitsToNat rest : Int)) else none
    else if c = '+' then
      if pyIsdigit rest then some ((digitsToNat rest : Int)) else none
    else
      if pyIsdigit (c :: rest) then some ((digitsToNat (c :: rest) : Int)) else none

/-- Python truthiness of an optional string option (`None` and `""` are falsy). -/
def pyTruthyStr : Option PyStr → Bool
  | Option.none => false
  | some s => !s.isEmpty

/-- `compose.service.ConvergenceStrategy` (imported by main.py). -/
inductive ConvergenceStrategy
  | always
  | never
  | changed
  deriving DecidableEq, Repr

/-- `compose.service.BuildAction` (imported by main.py). -/
inductive BuildAction
  | force
  | skip
  | none
  deriving DecidableEq, Repr

/-- The recreate/build flags shared by `up` and `create`
(`--force-recreate`, `--no-recreate`, `--build`, `--no-build`). -/
structure OptsFlags where
  forceRecreate : Bool
  noRecreate : Bool
  build : Bool
  noBuild : Bool
  deriving DecidableEq, Repr

/-- `convergence_strategy_from_opts` (main.py:763-775).  Raising
`UserError` is modelled as `Except.error` carrying the message. -/
def convergence_strategy_from_opts (o : OptsFlags) : Except String ConvergenceStrategy :=
  if o.forceRecreate && o.noRecreate then
    Except.error "--force-recreate and --no-recreate cannot be combined."
  else if o.forceRecreate then Except.ok ConvergenceStrategy.always
  else if o.noRecreate then Except.ok ConvergenceStrategy.never
  else Except.ok ConvergenceStrategy.changed

/-- `build_action_from_opts` (main.py:787-797). -/
def build_action_from_opts (o : OptsFlags) : Except String BuildAction :=
  if o.build && o.noBuild then
    Except.error "--build and --no-build can not be combined."
  else if o.build then Except.ok BuildAction.force
  else if o.noBuild then Except.ok BuildAction.skip
  else Except.ok BuildAction.none

/-- The `tail` entry of the log arguments built by `logs` (main.py:398-408):
`None`, a parsed integer, or the literal string `'all'`. -/
inductive TailArg
  | noLimit
  | num (n : Nat)
  | all
  deriving DecidableEq, Repr

/-- The container-options dictionary built by `build_container_options`
(main.py:800-832).  `Option.none` for an entry means the key is absent. -/
structure ContainerOpts where
  command : Option (List PyStr)
  tty : Bool
  stdin_open : Bool
  detach : Bool
  environment : Option (List PyStr)
  entrypoint : Option PyStr
  restartCleared : Bool
  user : Option PyStr
  ports : Option (List PyStr)
  name : Option PyStr
  working_dir : Option PyStr
  deriving DecidableEq, Repr

/-- One call into the project / docker-client / pty layer, in the order the
command handler issues them. -/
inductive Call
  | projectUp (serviceNames : List PyStr) (startDeps : Bool)
      (strategy : ConvergenceStrategy) (doBuild : BuildAction)
      (timeout : Nat) (detached : Bool) (removeOrphans : Bool)
  | projectCreate (serviceNames : List PyStr)
      (strategy : ConvergenceStrategy) (doBuild : BuildAction)
  | projectUpDeps (deps : List PyStr)
  | projectStop (serviceNames : List PyStr) (timeout : Nat)
  | projectKill (serviceNames : List PyStr)
  | logPrinterRun (cascadeStop : Bool) (follow : Bool) (tail : TailArg)
  | containersFetch (serviceNames : List PyStr)
  | projectInit
  | createContainer (copts : ContainerOpts)
  | startContainer
  | createExec (tty : Bool) (stdin : Bool)
  | startExec (tty : Bool)
  | ptyStart
  | execInspect
  | containerWait
  | clientStop
  | clientKill
  | removeContainer (force : Bool)
  | scaleService (name : PyStr) (num : Int) (timeout : Nat)
  deriving DecidableEq, Repr

/-- The ordered runtime calls a handler issued. -/
abbrev Trace := List Call

/-- How a command handler finishes: normal return, a raised exception of
one of the kinds `main` catches, or an explicit `sys.exit(code)`. -/
inductive Outcome
  | ok
  | userError (msg : String)
  | noSuchService
  | configurationError
  | buildError
  | streamOutputError
  | needsBuildError
  | connectionError
  | shutdownEscaped
  | sysExit (code : Nat)
  deriving DecidableEq, Repr

/-- Process exit code produced by `main` (main.py:53-75): every caught
exception class exits 1; a `SystemExit` propagates its code; a normal
return ends the process with 0. -/
def mainExitCode : Outcome → Nat
  | Outcome.ok => 0
  | Outcome.userError _ => 1
  | Outcome.noSuchService => 1
  | Outcome.configurationError => 1
  | Outcome.buildError => 1
  | Outcome.streamOutputError => 1
  | Outcome.needsBuildError => 1
  | Outcome.connectionError => 1
  | Outcome.shutdownEscaped => 1
  | Outcome.sysExit c => c

/-- The convergence strategy carried by a planning call, if the call is one. -/
def passedStrategy : Call → Option ConvergenceStrategy
  | Call.projectUp _ _ s _ _ _ _ => some s
  | Call.projectCreate _ s _ => some s
  | _ => none

/-- `compose.const.DEFAULT_TIMEOUT`.  The module itself is outside the
provided sources; the `up`/`stop`/`scale` help text documents the default
as 10 seconds. -/
def DEFAULT_TIMEOUT : Nat := 10

/-- Options of `up` (main.py:668-745). -/
structure UpOpts where
  flags : OptsFlags
  detached : Bool
  cascadeStop : Bool
  noDeps : Bool
  noColor : Bool
  serviceNames : List PyStr
  timeout : Option Nat
  removeOrphans : Bool
  deriving DecidableEq, Repr

/-- `int(options.get('--timeout') or DEFAULT_TIMEOUT)` in `up`. -/
def upTimeout (o : UpOpts) : Nat := o.timeout.getD DEFAULT_TIMEOUT

/-- `TopLevelCommand.up` (main.py:668-745), non-interrupted run: validate
the detached/cascade combination, convert the strategy and build flags
(in that evaluation order), call `project.up`, and when attached run the
log printer and, under cascade-stop, stop the targeted services. -/
def up (o : UpOpts) : Trace × Outcome :=
  if o.detached && o.cascadeStop then
    ([], Outcome.userError "--abort-on-container-exit and -d cannot be combined.")
  else
    match convergence_strategy_from_opts o.flags with
    | Except.error m => ([], Outcome.userError m)
    | Except.ok strat =>
      match build_action_from_opts o.flags with
      | Except.error m => ([], Outcome.userError m)
      | Except.ok act =>
        let t : Trace := [Call.projectUp o.serviceNames (!o.noDeps) strat act
            (upTimeout o) o.detached o.removeOrphans]
        if o.detached then (t, Outcome.ok)
        else
          let t := t ++ [Call.logPrinterRun o.cascadeStop true TailArg.noLimit]
          if o.cascadeStop then
            (t ++ [Call.projectStop o.serviceNames (upTimeout o)], Outcome.ok)
          else (t, Outcome.ok)

/-- Options of `create` (main.py:243-263). -/
structure CreateOpts where
  flags : OptsFlags
  serviceNames : List PyStr
  deriving DecidableEq, Repr

/-- `TopLevelCommand.create` (main.py:243-263): convert the strategy and
build flags (in that evaluation order) and call `project.create`. -/
def create (c : CreateOpts) : Trace × Outcome :=
  match convergence_strategy_from_opts c.flags with
  | Except.error m => ([], Outcome.userError m)
  | Except.ok strat =>
    match build_action_from_opts c.flags with
    | Except.error m => ([], Outcome.userError m)
    | Except.ok act => ([Call.projectCreate c.serviceNames strat act], Outcome.ok)

/-- How many external interrupts arrive during the guarded window. -/
inductive Signals
  | noSignal
  | oneSignal
  | twoSignals
  deriving DecidableEq, Repr

/-- `up_shutdown_context` (main.py:912-927).  `bodyDone` is the trace of the
wrapped block when it completes; `bodyCut` is its prefix at the point the
first `ShutdownException` lands.  The first interrupt issues
`project.stop(service_names, timeout)`; a second interrupt, landing during
that stop, issues `project.kill(service_names)` and exits with code 2. -/
def up_shutdown_context (detached : Bool) (serviceNames : List PyStr) (timeout : Nat)
    (bodyDone bodyCut : Trace) : Signals → Trace × Outcome
  | Signals.noSignal => (bodyDone, Outcome.ok)
  | Signals.oneSignal =>
    if detached then (bodyDone, Outcome.ok)
    else (bodyCut ++ [Call.projectStop serviceNames timeout], Outcome.ok)
  | Signals.twoSignals =>
    if detached then (bodyDone, Outcome.ok)
    else
      (bodyCut ++ [Call.projectStop serviceNames timeout, Call.projectKill serviceNames],
        Outcome.sysExit 2)

/-- Options of `logs` (main.py:383-414). -/
structure LogsOpts where
  serviceNames : List PyStr
  noColor : Bool
  follow : Bool
  timestamps : Bool
  tail : Option PyStr
  deriving DecidableEq, Repr

/-- `TopLevelCommand.logs` (main.py:383-414): fetch the containers, then
validate `--tail` (`isdigit` first, then the literal `'all'`), then run
the log printer. -/
def logs (o : LogsOpts) : Trace × Outcome :=
  let t0 : Trace := [Call.containersFetch o.serviceNames]
  match o.tail with
  | Option.none =>
    (t0 ++ [Call.logPrinterRun false o.follow TailArg.noLimit], Outcome.ok)
  | some s =>
    if pyIsdigit s then
      (t0 ++ [Call.logPrinterRun false o.follow (TailArg.num (digitsToNat s))], Outcome.ok)
    else if s = ['a', 'l', 'l'] then
      (t0 ++ [Call.logPrinterRun false o.follow TailArg.all], Outcome.ok)
    else
      (t0, Outcome.userError "tail flag must be all or a number")

/-- The loop body of `scale` (main.py:610-619), carrying the calls already
issued: each `SERVICE=NUM` argument is checked for `'='`, its count parsed
with `int`, and the service scaled, strictly left to right. -/
def scaleLoop (timeout : Nat) : List PyStr → Trace → Trace × Outcome
  | [], acc => (acc, Outcome.ok)
  | s :: rest, acc =>
    if !hasEq s then
      (acc, Outcome.userError "Arguments to scale should be in the form service=num")
    else
      match pyInt (splitEqOnce s).2 with
      | Option.none =>
        (acc, Outcome.userError ("Number of containers for service \"" ++
          String.mk (splitEqOnce s).1 ++ "\" is not a number"))
      | some n => scaleLoop timeout rest (acc ++ [Call.scaleService (splitEqOnce s).1 n timeout])

/-- `TopLevelCommand.scale` (main.py:593-619). -/
def scale (timeout : Nat) (args : List PyStr) : Trace × Outcome :=
  scaleLoop timeout args []

/-- A `SERVICE=NUM` argument `scale` accepts: it contains `'='` and the part
after the first `'='` parses as an integer. -/
def validScaleArg (s : PyStr) : Bool :=
  hasEq s && (pyInt (splitEqOnce s).2).isSome

/-- The call `scale` issues for a valid argument. -/
def scaleCallOf (timeout : Nat) (s : PyStr) : Call :=
  Call.scaleService (splitEqOnce s).1 ((pyInt (splitEqOnce s).2).getD 0) timeout

/-- Options of `run` (main.py:540-591). -/
structure RunOpts where
  detach : Bool
  name : Option PyStr
  entrypoint : Option PyStr
  envArgs : List PyStr
  user : Option PyStr
  noDeps : Bool
  rm : Bool
  publish : List PyStr
  servicePorts : Bool
  disableTty : Bool
  workdir : Option PyStr
  command : Option PyStr
  args : List PyStr
  deriving DecidableEq, Repr

/-- `build_container_options` (main.py:800-832).  `stdinIsatty` models
`sys.stdin.isatty()`. -/
def build_container_options (o : RunOpts) (detach : Bool)
    (command : Option (List PyStr)) (stdinIsatty : Bool) : ContainerOpts :=
  { command := command
    tty := !(detach || o.disableTty || !stdinIsatty)
    stdin_open := !detach
    detach := detach
    environment := if o.envArgs.isEmpty then Option.none else some o.envArgs
    entrypoint := if pyTruthyStr o.entrypoint then o.entrypoint else Option.none
    restartCleared := o.rm
    user := if pyTruthyStr o.user then o.user else Option.none
    ports := if o.publish.isEmpty then
        (if o.servicePorts then Option.none else some []) else some o.publish
    name := if pyTruthyStr o.name then o.name else Option.none
    working_dir := if pyTruthyStr o.workdir then o.workdir else Option.none }

/-- `run_one_off_container` (main.py:835-883).  `deps` is
`service.get_dependency_names()`; `remoteExit` is `container.wait()`.
With no interrupt the pty bridge unwinds, the exit status is read, and the
process exits with it; the first interrupt stops the container and sets
exit code 1; a second interrupt, landing during that stop, kills the
container and exits 2.  The container is removed (with force) exactly when
`--rm` was passed, on every attached path. -/
def run_one_off_container (copts : ContainerOpts) (o : RunOpts) (deps : List PyStr)
    (sig : Signals) (remoteExit : Nat) : Trace × Outcome :=
  let t0 : Trace := (if !o.noDeps && !deps.isEmpty then [Call.projectUpDeps deps] else [])
      ++ [Call.projectInit, Call.createContainer copts]
  if o.detach then (t0 ++ [Call.startContainer], Outcome.ok)
  else
    let rmTail : Trace := if o.rm then [Call.removeContainer true] else []
    match sig with
    | Signals.noSignal =>
      (t0 ++ [Call.startContainer, Call.ptyStart, Call.containerWait] ++ rmTail,
        Outcome.sysExit remoteExit)
    | Signals.oneSignal =>
      (t0 ++ [Call.startContainer, Call.ptyStart, Call.clientStop] ++ rmTail,
        Outcome.sysExit 1)
    | Signals.twoSignals =>
      (t0 ++ [Call.startContainer, Call.ptyStart, Call.clientStop, Call.clientKill]
        ++ rmTail, Outcome.sysExit 2)

/-- `TopLevelCommand.run` (main.py:540-591): platform and port-flag checks,
choice of the command line, then `run_one_off_container` on the options
built by `build_container_options`. -/
def run (o : RunOpts) (svcCommand : Option (List PyStr)) (deps : List PyStr)
    (stdinIsatty isWindows : Bool) (sig : Signals) (remoteExit : Nat) : Trace × Outcome :=
  if isWindows && !o.detach then
    ([], Outcome.userError
      "Interactive mode is not yet supported on Windows.\nPlease pass the -d flag when using `docker-compose run`.")
  else if !o.publish.isEmpty && o.servicePorts then
    ([], Outcome.userError
      "Service port mapping and manual port mapping can not be used togather")
  else
    let command := if pyTruthyStr o.command then some (o.command.getD [] :: o.args)
      else svcCommand
    run_one_off_container (build_container_options o o.detach command stdinIsatty)
      o deps sig remoteExit

/-- Options of `exec` (main.py:308-357). -/
structure ExecOpts where
  detached : Bool
  privileged : Bool
  user : Option PyStr
  disableTty : Bool
  index : Nat
  deriving DecidableEq, Repr

/-- `TopLevelCommand.exec_command` (main.py:308-357).  `containerFound`
models `service.get_container(number=index)` succeeding (`lookupErr` is
the `ValueError` text rewrapped as `UserError` otherwise); `interrupted`
records whether a `ShutdownException` landed during the pty bridge — it is
caught and merely logged, so the continuation is the same either way: the
exec result is inspected after the bridge unwinds and the process exits
with the remote exit status.  `tty` is `not options['-T']`. -/
def exec_command (o : ExecOpts) (containerFound : Bool) (lookupErr : String)
    (interrupted : Bool) (remoteExit : Nat) : Trace × Outcome :=
  if !containerFound then ([], Outcome.userError lookupErr)
  else
    let tty := !o.disableTty
    let t0 : Trace := [Call.createExec tty tty]
    if o.detached then (t0 ++ [Call.startExec tty], Outcome.ok)
    else
      let _ := interrupted
      (t0 ++ [Call.ptyStart, Call.execInspect], Outcome.sysExit remoteExit)

/-- On conflicting flags, either the strategy conversion errors, or it
succeeds and the build conversion errors. -/
theorem flags_conflict_cases (f : OptsFlags)
    (h : ((f.forceRecreate && f.noRecreate) || (f.build && f.noBuild)) = true) :
    (∃ m, convergence_strategy_from_opts f = Except.error m) ∨
    ((∃ s, convergence_strategy_from_opts f = Except.ok s) ∧
      ∃ m, build_action_from_opts f = Except.error m) := by
  rcases f with ⟨fr, nr, b, nb⟩
  cases fr <;> cases nr <;> cases b <;> cases nb <;>
    simp_all [convergence_strategy_from_opts, build_action_from_opts]

/-- Claim C1: for the invocations that accept the recreate/build flags (`up`
and `create`), requesting `--force-recreate` together with `--no-recreate`,
or `--build` together with `--no-build`, raises the conflicting-options
`UserError` produced by the option-conversion functions with an empty call
trace — before any planning step or runtime call is made. -/
theorem conflicting_flags_fail_before_any_call (o : UpOpts) (c : CreateOpts)
    (hup : (o.detached && o.cascadeStop) = false)
    (ho : ((o.flags.forceRecreate && o.flags.noRecreate) ||
      (o.flags.build && o.flags.noBuild)) = true)
    (hc : ((c.flags.forceRecreate && c.flags.noRecreate) ||
      (c.flags.build && c.flags.noBuild)) = true) :
    ((up o).1 = [] ∧ ∃ m, (up o).2 = Outcome.userError m ∧
      (convergence_strategy_from_opts o.flags = Except.error m ∨
        build_action_from_opts o.flags = Except.error m)) ∧
    ((create c).1 = [] ∧ ∃ m, (create c).2 = Outcome.userError m ∧
      (convergence_strategy_from_opts c.flags = Except.error m ∨
        build_action_from_opts c.flags = Except.error m)) := by
  constructor
  · rcases flags_conflict_cases o.flags ho with ⟨m, hm⟩ | ⟨⟨s, hs⟩, m, hm⟩
    · exact ⟨by simp [up, hup, hm], m, by simp [up, hup, hm], Or.inl hm⟩
    · exact ⟨by simp [up, hup, hs, hm], m, by simp [up, hup, hs, hm], Or.inr hm⟩
  · rcases flags_conflict_cases c.flags hc with ⟨m, hm⟩ | ⟨⟨s, hs⟩, m, hm⟩
    · exact ⟨by simp [create, hm], m, by simp [create, hm], Or.inl hm⟩
    · exact ⟨by simp [create, hs, hm], m, by simp [create, hs, hm], Or.inr hm⟩

/-- Witness for C1: an `up` with both recreate flags and a `create` with both
build flags issue no call at all. -/
theorem conflicting_flags_fail_before_any_call_witness :
    (up ⟨⟨true, true, false, false⟩, false, false, false, false, [], Option.none, false⟩).1 = [] ∧
    (create ⟨⟨false, false, true, true⟩, []⟩).1 = [] := by
  have h := conflicting_flags_fail_before_any_call
    ⟨⟨true, true, false, false⟩, false, false, false, false, [], Option.none, false⟩
    ⟨⟨false, false, true, true⟩, []⟩ rfl rfl rfl
  exact ⟨h.1.1, h.2.1⟩

/-- Claim C8: combining `-d` with `--abort-on-container-exit` on `up` raises
a `UserError` with an empty call trace — before any convergence, creation
or start is attempted. -/
theorem up_detached_cascade_conflict (o : UpOpts)
    (hd : o.detached = true) (hc : o.cascadeStop = true) :
    up o = ([], Outcome.userError
      "--abort-on-container-exit and -d cannot be combined.") := by
  simp [up, hd, hc]

/-- Witness for C8. -/
theorem up_detached_cascade_conflict_witness :
    up ⟨⟨false, false, false, false⟩, true, true, false, false, [], Option.none, false⟩
      = ([], Outcome.userError
        "--abort-on-container-exit and -d cannot be combined.") :=
  up_detached_cascade_conflict
    ⟨⟨false, false, false, false⟩, true, true, false, false, [], Option.none, false⟩ rfl rfl

/-- A non-conflicting build flag pair always converts successfully. -/
theorem build_action_ok (f : OptsFlags) (h : (f.build && f.noBuild) = false) :
    ∃ a, build_action_from_opts f = Except.ok a := by
  rcases f with ⟨fr, nr, b, nb⟩
  cases b <;> cases nb <;> simp_all [build_action_from_opts]

/-- When both conversions succeed, the first call `up` issues is the
planning call and it carries the converted strategy. -/
theorem up_head_strategy (o : UpOpts) (strat : ConvergenceStrategy) (act : BuildAction)
    (hud : (o.detached && o.cascadeStop) = false)
    (hs : convergence_strategy_from_opts o.flags = Except.ok strat)
    (hb : build_action_from_opts o.flags = Except.ok act) :
    (up o).1.head?.bind passedStrategy = some strat := by
  simp only [up, hud, Bool.false_eq_true, if_false, hs, hb]
  cases h1 : o.detached <;> cases h2 : o.cascadeStop <;>
    simp [passedStrategy]

/-- When both conversions succeed, the call `create` issues carries the
converted strategy. -/
theorem create_head_strategy (c : CreateOpts) (strat : ConvergenceStrategy) (act : BuildAction)
    (hs : convergence_strategy_from_opts c.flags = Except.ok strat)
    (hb : build_action_from_opts c.flags = Except.ok act) :
    (create c).1.head?.bind passedStrategy = some strat := by
  simp [create, hs, hb, passedStrategy]

/-- Claim C4: on `up` and `create`, `--force-recreate` makes
`ConvergenceStrategy.always` the strategy passed to planning,
`--no-recreate` makes it `never`, and neither flag makes it `changed`. -/
theorem strategy_passed_to_planning (o : UpOpts) (c : CreateOpts)
    (hud : (o.detached && o.cascadeStop) = false)
    (hb : (o.flags.build && o.flags.noBuild) = false)
    (hcb : (c.flags.build && c.flags.noBuild) = false) :
    ((o.flags.forceRecreate = true → o.flags.noRecreate = false →
        (up o).1.head?.bind passedStrategy = some ConvergenceStrategy.always) ∧
      (o.flags.noRecreate = true → o.flags.forceRecreate = false →
        (up o).1.head?.bind passedStrategy = some ConvergenceStrategy.never) ∧
      (o.flags.forceRecreate = false → o.flags.noRecreate = false →
        (up o).1.head?.bind passedStrategy = some ConvergenceStrategy.changed)) ∧
    ((c.flags.forceRecreate = true → c.flags.noRecreate = false →
        (create c).1.head?.bind passedStrategy = some ConvergenceStrategy.always) ∧
      (c.flags.noRecreate = true → c.flags.forceRecreate = false →
        (create c).1.head?.bind passedStrategy = some ConvergenceStrategy.never) ∧
      (c.flags.forceRecreate = false → c.flags.noRecreate = false →
        (create c).1.head?.bind passedStrategy = some ConvergenceStrategy.changed)) := by
  obtain ⟨a, ha⟩ := build_action_ok o.flags hb
  obtain ⟨a2, ha2⟩ := build_action_ok c.flags hcb
  refine ⟨⟨?_, ?_, ?_⟩, ?_, ?_, ?_⟩ <;> intro h1 h2
  · exact up_head_strategy o _ a hud
      (by simp [convergence_strategy_from_opts, h1, h2]) ha
  · exact up_head_strategy o _ a hud
      (by simp [convergence_strategy_from_opts, h1, h2]) ha
  · exact up_head_strategy o _ a hud
      (by simp [convergence_strategy_from_opts, h1, h2]) ha
  · exact create_head_strategy c _ a2
      (by simp [convergence_strategy_from_opts, h1, h2]) ha2
  · exact create_head_strategy c _ a2
      (by simp [convergence_strategy_from_opts, h1, h2]) ha2
  · exact create_head_strategy c _ a2
      (by simp [convergence_strategy_from_opts, h1, h2]) ha2

/-- Witness for C4: force-recreate yields `always` on `up`, no-recreate
yields `never` on `create`. -/
theorem strategy_passed_to_planning_witness :
    (up ⟨⟨true, false, false, false⟩, false, false, false, false, [],
        Option.none, false⟩).1.head?.bind passedStrategy
      = some ConvergenceStrategy.always ∧
    (create ⟨⟨false, true, false, false⟩, []⟩).1.head?.bind passedStrategy
      = some ConvergenceStrategy.never := by
  have h := strategy_passed_to_planning
    ⟨⟨true, false, false, false⟩, false, false, false, false, [], Option.none, false⟩
    ⟨⟨false, true, false, false⟩, []⟩ rfl rfl rfl
  exact ⟨h.1.1 rfl rfl, h.2.2.1 rfl rfl⟩

/-- Claim C2: during an attached `up`, the first interrupt issues exactly one
graceful `stop(timeout)` over the targeted services; a second interrupt
landing during that stop issues `kill` over the same services and the
process exits with the reserved forced-shutdown code 2, distinct from the
generic failure code 1 that `main` uses for user / configuration / build /
pull-stream errors. -/
theorem up_double_interrupt_escalation (names : List PyStr) (timeout : Nat)
    (bodyDone bodyCut : Trace) :
    up_shutdown_context false names timeout bodyDone bodyCut Signals.oneSignal
        = (bodyCut ++ [Call.projectStop names timeout], Outcome.ok) ∧
    up_shutdown_context false names timeout bodyDone bodyCut Signals.twoSignals
        = (bodyCut ++ [Call.projectStop names timeout, Call.projectKill names],
            Outcome.sysExit 2) ∧
    mainExitCode (up_shutdown_context false names timeout bodyDone bodyCut
        Signals.twoSignals).2 = 2 ∧
    (∀ m, mainExitCode (Outcome.userError m) = 1) ∧
    mainExitCode Outcome.configurationError = 1 ∧
    mainExitCode Outcome.buildError = 1 ∧
    mainExitCode Outcome.streamOutputError = 1 ∧
    mainExitCode Outcome.needsBuildError = 1 ∧
    (2 : Nat) ≠ 1 := by
  exact ⟨rfl, rfl, rfl, fun m => rfl, rfl, rfl, rfl, rfl, by decide⟩

/-- Claim C3: an attached `up` with `--abort-on-container-exit` issues
`project.stop(service_names, timeout)` after the log-printer loop has
returned and before the command itself returns. -/
theorem up_cascade_stop_issues_stop (o : UpOpts)
    (hd : o.detached = false) (hc : o.cascadeStop = true)
    (hs : (o.flags.forceRecreate && o.flags.noRecreate) = false)
    (hb : (o.flags.build && o.flags.noBuild) = false) :
    ∃ strat act, up o =
      ([Call.projectUp o.serviceNames (!o.noDeps) strat act (upTimeout o)
          false o.removeOrphans,
        Call.logPrinterRun true true TailArg.noLimit,
        Call.projectStop o.serviceNames (upTimeout o)], Outcome.ok) := by
  rcases o with ⟨⟨fr, nr, b, nb⟩, det, cas, nd, nc, sn, tmo, ro⟩
  simp only [] at hd hc
  subst hd; subst hc
  cases fr <;> cases nr <;> cases b <;> cases nb <;>
    simp_all [up, convergence_strategy_from_opts, build_action_from_opts]

/-- Witness for C3. -/
theorem up_cascade_stop_issues_stop_witness :
    ∃ strat act,
      up ⟨⟨false, false, false, false⟩, false, true, false, false,
          [['w', 'e', 'b']], some 5, false⟩ =
        ([Call.projectUp [['w', 'e', 'b']] true strat act 5 false false,
          Call.logPrinterRun true true TailArg.noLimit,
          Call.projectStop [['w', 'e', 'b']] 5], Outcome.ok) :=
  up_cascade_stop_issues_stop
    ⟨⟨false, false, false, false⟩, false, true, false, false,
      [['w', 'e', 'b']], some 5, false⟩ rfl rfl rfl rfl

/-- Claim C5: an attached `run` that completes without any interrupt, and an
attached `exec` session (interrupted or not — an interrupt during the
bridge is caught), exit with the remote process's exit status, and the
status read (`container.wait()` / `exec_inspect`) appears in the call
trace only after the pty bridge (`ptyStart`) has unwound. -/
theorem session_exit_mirrors_remote (copts : ContainerOpts) (ro : RunOpts)
    (deps : List PyStr) (e : Nat) (eo : ExecOpts) (msg : String) (intr : Bool)
    (hro : ro.detach = false) (heo : eo.detached = false) :
    run_one_off_container copts ro deps Signals.noSignal e
        = ((if !ro.noDeps && !deps.isEmpty then [Call.projectUpDeps deps] else [])
            ++ [Call.projectInit, Call.createContainer copts, Call.startContainer,
                Call.ptyStart, Call.containerWait]
            ++ (if ro.rm then [Call.removeContainer true] else []),
          Outcome.sysExit e) ∧
    mainExitCode (run_one_off_container copts ro deps Signals.noSignal e).2 = e ∧
    exec_command eo true msg intr e
        = ([Call.createExec (!eo.disableTty) (!eo.disableTty), Call.ptyStart,
            Call.execInspect], Outcome.sysExit e) ∧
    mainExitCode (exec_command eo true msg intr e).2 = e := by
  refine ⟨?_, ?_, ?_, ?_⟩ <;>
    simp [run_one_off_container, exec_command, hro, heo, mainExitCode]

/-- Witness for C5: a run and an exec both finishing with remote status 7. -/
theorem session_exit_mirrors_remote_witness :
    mainExitCode (run_one_off_container
      ⟨Option.none, true, true, false, Option.none, Option.none, false,
        Option.none, some [], Option.none, Option.none⟩
      ⟨false, Option.none, Option.none, [], Option.none, true, false, [], false,
        false, Option.none, Option.none, []⟩
      [] Signals.noSignal 7).2 = 7 ∧
    mainExitCode (exec_command ⟨false, false, Option.none, false, 1⟩
      true "no container" false 7).2 = 7 := by
  have h := session_exit_mirrors_remote
    ⟨Option.none, true, true, false, Option.none, Option.none, false,
      Option.none, some [], Option.none, Option.none⟩
    ⟨false, Option.none, Option.none, [], Option.none, true, false, [], false,
      false, Option.none, Option.none, []⟩
    [] 7 ⟨false, false, Option.none, false, 1⟩ "no container" false rfl rfl
  exact ⟨h.2.1, h.2.2.2⟩

/-- Claim C6: during an attached one-off `run`, the first interrupt stops the
container and exits with the generic failure code 1 (the code `main` uses
for user errors); a second interrupt kills the container, removes it
exactly when `--rm` was requested, and exits with the reserved
forced-shutdown code 2, distinct from the generic code. -/
theorem run_interrupt_escalation (copts : ContainerOpts) (ro : RunOpts)
    (deps : List PyStr) (e : Nat) (m : String)
    (h : ro.detach = false) :
    run_one_off_container copts ro deps Signals.oneSignal e
        = ((if !ro.noDeps && !deps.isEmpty then [Call.projectUpDeps deps] else [])
            ++ [Call.projectInit, Call.createContainer copts, Call.startContainer,
                Call.ptyStart, Call.clientStop]
            ++ (if ro.rm then [Call.removeContainer true] else []),
          Outcome.sysExit 1) ∧
    mainExitCode (run_one_off_container copts ro deps Signals.oneSignal e).2
        = mainExitCode (Outcome.userError m) ∧
    run_one_off_container copts ro deps Signals.twoSignals e
        = ((if !ro.noDeps && !deps.isEmpty then [Call.projectUpDeps deps] else [])
            ++ [Call.projectInit, Call.createContainer copts, Call.startContainer,
                Call.ptyStart, Call.clientStop, Call.clientKill]
            ++ (if ro.rm then [Call.removeContainer true] else []),
          Outcome.sysExit 2) ∧
    mainExitCode (run_one_off_container copts ro deps Signals.twoSignals e).2
        ≠ mainExitCode (Outcome.userError m) := by
  refine ⟨?_, ?_, ?_, ?_⟩ <;>
    simp [run_one_off_container, h, mainExitCode]

/-- Witness for C6: with `--rm` requested, the forced path kills and removes
the container and exits 2. -/
theorem run_interrupt_escalation_witness :
    run_one_off_container
      ⟨Option.none, false, true, false, Option.none, Option.none, true,
        Option.none, some [], Option.none, Option.none⟩
      ⟨false, Option.none, Option.none, [], Option.none, true, true, [], false,
        true, Option.none, Option.none, []⟩
      [] Signals.twoSignals 0
      = ([Call.projectInit,
          Call.createContainer ⟨Option.none, false, true, false, Option.none,
            Option.none, true, Option.none, some [], Option.none, Option.none⟩,
          Call.startContainer, Call.ptyStart, Call.clientStop, Call.clientKill,
          Call.removeContainer true],
        Outcome.sysExit 2) := by
  have h := run_interrupt_escalation
    ⟨Option.none, false, true, false, Option.none, Option.none, true,
      Option.none, some [], Option.none, Option.none⟩
    ⟨false, Option.none, Option.none, [], Option.none, true, true, [], false,
      true, Option.none, Option.none, []⟩
    [] 0 "x" rfl
  simpa using h.2.2.1

/-- Counterexample to claim C7: a detached `exec` (`-d`) without `-T` still
requests a pseudo-TTY — `exec_command` computes `tty` as `not
options['-T']` alone, never consulting detach mode or the local terminal
(it has no terminal input at all), so "a pseudo-TTY is allocated iff the
session is not detached, `-T` was not passed, and stdin is a terminal"
fails at this input: the session is detached, yet `create_exec` is called
with `tty = true`. -/
theorem exec_tty_ignores_detach_and_terminal :
    exec_command ⟨true, false, Option.none, false, 1⟩ true "" false 0
      = ([Call.createExec true true, Call.startExec true], Outcome.ok) := rfl

/-- Claim C7 (amended): for `run` invocations a pseudo-TTY is allocated iff
the session is not detached, `-T` was not passed, and stdin is a real
terminal; for `exec` invocations a pseudo-TTY is allocated iff `-T` was
not passed, regardless of detach mode and of the local terminal. -/
theorem tty_allocation_run_and_exec (ro : RunOpts) (detach : Bool)
    (cmd : Option (List PyStr)) (isatty : Bool) (eo : ExecOpts)
    (m : String) (intr : Bool) (e : Nat) :
    (build_container_options ro detach cmd isatty).tty
        = (!detach && !ro.disableTty && isatty) ∧
    (exec_command eo true m intr e).1.head?
        = some (Call.createExec (!eo.disableTty) (!eo.disableTty)) := by
  constructor
  · rcases ro with ⟨det, nm, ep, ev, us, nd, rm, pb, sp, dt, wd, co, ar⟩
    cases detach <;> cases dt <;> cases isatty <;>
      simp [build_container_options]
  · cases hd : eo.detached <;> simp [exec_command, hd]

/-- The loop of `scale` consumes a block of valid arguments by appending
their scaling calls to the accumulator, and stops with a `UserError` at
the first invalid argument. -/
theorem scaleLoop_first_invalid (timeout : Nat) (bad : PyStr) (rest : List PyStr)
    (hbad : validScaleArg bad = false) :
    ∀ (pre : List PyStr) (acc : Trace), (∀ a ∈ pre, validScaleArg a = true) →
      (scaleLoop timeout (pre ++ bad :: rest) acc).1
          = acc ++ pre.map (scaleCallOf timeout) ∧
      ∃ m, (scaleLoop timeout (pre ++ bad :: rest) acc).2 = Outcome.userError m := by
  intro pre
  induction pre with
  | nil =>
    intro acc _
    by_cases hq : hasEq bad
    · have hp : pyInt (splitEqOnce bad).2 = Option.none := by
        rcases hpy : pyInt (splitEqOnce bad).2 with _ | n
        · rfl
        · simp [validScaleArg, hq, hpy] at hbad
      refine ⟨by simp [scaleLoop, hq, hp], ?_⟩
      exact ⟨"Number of containers for service \"" ++ String.mk (splitEqOnce bad).1 ++
        "\" is not a number", by simp [scaleLoop, hq, hp]⟩
    · simp only [Bool.not_eq_true] at hq
      refine ⟨by simp [scaleLoop, hq], ?_⟩
      exact ⟨"Arguments to scale should be in the form service=num",
        by simp [scaleLoop, hq]⟩
  | cons p pre ih =>
    intro acc hv
    have hvp : validScaleArg p = true := hv p (by simp)
    have hq : hasEq p = true := by
      rcases hq : hasEq p
      · simp [validScaleArg, hq] at hvp
      · rfl
    obtain ⟨n, hn⟩ : ∃ n, pyInt (splitEqOnce p).2 = some n := by
      rcases hpn : pyInt (splitEqOnce p).2 with _ | n
      · simp [validScaleArg, hq, hpn] at hvp
      · exact ⟨n, rfl⟩
    have step : scaleLoop timeout ((p :: pre) ++ bad :: rest) acc
        = scaleLoop timeout (pre ++ bad :: rest)
            (acc ++ [Call.scaleService (splitEqOnce p).1 n timeout]) := by
      simp [scaleLoop, hq, hn]
    obtain ⟨h1, m, h2⟩ := ih (acc ++ [Call.scaleService (splitEqOnce p).1 n timeout])
      (fun a ha => hv a (by simp [ha]))
    refine ⟨?_, m, ?_⟩
    · rw [step, h1]
      simp [scaleCallOf, hn]
    · rw [step, h2]

/-- Claim C9: `scale` handles its `SERVICE=NUM` arguments strictly left to
right and raises a `UserError` at the first argument lacking `'='` or
whose count does not parse as an integer; the trace then consists exactly
of the scaling calls for the earlier, valid arguments — services named
before the failing argument have already been scaled, so a validation
failure is not atomic. -/
theorem scale_left_to_right_non_atomic (timeout : Nat)
    (pre : List PyStr) (bad : PyStr) (rest : List PyStr)
    (hpre : ∀ a ∈ pre, validScaleArg a = true)
    (hbad : validScaleArg bad = false) :
    (scale timeout (pre ++ bad :: rest)).1 = pre.map (scaleCallOf timeout) ∧
    ∃ m, (scale timeout (pre ++ bad :: rest)).2 = Outcome.userError m := by
  have h := scaleLoop_first_invalid timeout bad rest hbad pre [] hpre
  simpa [scale] using h

/-- Witness for C9: `scale web=2 worker db=x` scales `web` to 2, then fails
on `worker` (no `'='`); `db` is never scaled. -/
theorem scale_left_to_right_non_atomic_witness :
    (scale 10 ([['w', 'e', 'b', '=', '2']] ++
        ['w', 'o', 'r', 'k', 'e', 'r'] :: [['d', 'b', '=', 'x']])).1
      = [['w', 'e', 'b', '=', '2']].map (scaleCallOf 10) ∧
    ∃ m, (scale 10 ([['w', 'e', 'b', '=', '2']] ++
        ['w', 'o', 'r', 'k', 'e', 'r'] :: [['d', 'b', '=', 'x']])).2
      = Outcome.userError m :=
  scale_left_to_right_non_atomic 10 [['w', 'e', 'b', '=', '2']]
    ['w', 'o', 'r', 'k', 'e', 'r'] [['d', 'b', '=', 'x']]
    (by decide) (by decide)

/-- Claim C10: `logs` accepts `--tail` only as the literal string `'all'` or
a digit string: any other non-null value raises a `UserError` after the
container list has been fetched (the fetch is the first and only call in
that case) and before the log printer is started; the printer runs iff
the tail value is absent, all digits, or `'all'`, and the container fetch
is always the first call. -/
theorem logs_tail_validation (o : LogsOpts) :
    (∀ s, o.tail = some s → pyIsdigit s = false → ¬s = ['a', 'l', 'l'] →
      logs o = ([Call.containersFetch o.serviceNames],
        Outcome.userError "tail flag must be all or a number")) ∧
    ((logs o).2 = Outcome.ok ↔
      (o.tail = Option.none ∨
        ∃ s, o.tail = some s ∧ (pyIsdigit s = true ∨ s = ['a', 'l', 'l']))) ∧
    (logs o).1.head? = some (Call.containersFetch o.serviceNames) := by
  rcases o with ⟨sn, nc, fo, ts, tl⟩
  rcases tl with _ | s
  · refine ⟨?_, ?_, ?_⟩ <;> simp [logs]
  · by_cases hd : pyIsdigit s
    · refine ⟨?_, ?_, ?_⟩ <;> simp [logs, hd]
    · by_cases ha : s = ['a', 'l', 'l']
      · refine ⟨?_, ?_, ?_⟩ <;> simp_all [logs, hd, ha]
      · simp only [Bool.not_eq_true] at hd
        refine ⟨?_, ?_, ?_⟩ <;> simp_all [logs, hd, ha]

/-- Witness for C10: `--tail=x` fetches the containers and then fails
without starting the printer. -/
theorem logs_tail_validation_witness :
    logs ⟨[], false, false, false, some ['x']⟩
      = ([Call.containersFetch []],
        Outcome.userError "tail flag must be all or a number") :=
  (logs_tail_validation ⟨[], false, false, false, some ['x']⟩).1
    ['x'] rfl (by decide) (by decide)

end Compose
